import Mathlib

/-!
Shallow embedding of the configuration-analysis engine of the
Network-Config-Auditor repository.

Two engine variants are embedded:

* `Analyzer` — the backend service `src/backend/src/services/analyzer.js`.
* `FullAnalyzer` — the analyzer variant with the password-strength
  sub-analyzer (the first module of `src/unnamed/part_004`).

Strings are modelled as Lean `String`; the JavaScript string operations
used by the source (`split`, `trim`, `startsWith`, `includes`, `replace`
of the first occurrence, `toLowerCase`, indexing into a split) are
embedded as executable functions over the character list of a string.
Machine numbers are modelled as `Nat` (counts, lengths) and `Int`
(scores, which go negative before the final clamp).
-/

set_option maxRecDepth 10000

/-- The JavaScript whitespace class used by `String.prototype.trim`. -/
def jsWhitespace (c : Char) : Bool :=
  c == ' ' || c == '\t' || c == '\n' || c == '\x0b' || c == '\x0c' || c == '\r' ||
  c == ' ' || c == ' ' ||
  (decide (' ' ≤ c) && decide (c ≤ ' ')) ||
  c == ' ' || c == ' ' || c == ' ' || c == ' ' ||
  c == '　' || c == '﻿'

/-- JavaScript `s.trim()`: strip leading and trailing whitespace. -/
def jsTrim (s : String) : String :=
  String.mk (((s.data.dropWhile jsWhitespace).reverse.dropWhile jsWhitespace).reverse)

/-- Split a character list at every occurrence of `sep`
(JavaScript `s.split(sep)` for a one-character separator). -/
def splitChar (sep : Char) : List Char → List (List Char)
  | [] => [[]]
  | c :: cs =>
    if c == sep then [] :: splitChar sep cs
    else
      match splitChar sep cs with
      | [] => [[c]]
      | t :: ts => (c :: t) :: ts

/-- JavaScript `s.split(sep)` for a one-character separator. -/
def jsSplit (s : String) (sep : Char) : List String :=
  (splitChar sep s.data).map String.mk

/-- JavaScript indexing `arr[n]` into an array of strings:
`some` when the index is in bounds, `none` for `undefined`. -/
def jsToken (l : List String) (n : Nat) : Option String := l[n]?

/-- JavaScript `s.startsWith(p)`. -/
def jsStartsWith (s p : String) : Bool := p.data.isPrefixOf s.data

/-- `pat` occurs as a contiguous run inside `l`. -/
def infixOfList (pat : List Char) : List Char → Bool
  | [] => pat.isEmpty
  | c :: cs => pat.isPrefixOf (c :: cs) || infixOfList pat cs

/-- JavaScript `s.includes(p)`. -/
def jsIncludes (s p : String) : Bool := infixOfList p.data s.data

/-- Replace the first occurrence of `pat` in a character list by `repl`
(JavaScript `s.replace(pat, repl)` with a string pattern). -/
def replaceFirstList (pat repl : List Char) : List Char → List Char
  | [] => if pat.isPrefixOf ([] : List Char) then repl else []
  | c :: cs =>
    if pat.isPrefixOf (c :: cs) then repl ++ (c :: cs).drop pat.length
    else c :: replaceFirstList pat repl cs

/-- JavaScript `s.replace(pat, repl)` (first occurrence only). -/
def jsReplace (s pat repl : String) : String :=
  String.mk (replaceFirstList pat.data repl.data s.data)

/-- JavaScript `s.toLowerCase()` (ASCII letters, as used by the source). -/
def jsToLower (s : String) : String := String.mk (s.data.map Char.toLower)

/-- JavaScript `arr.join(sep)`. -/
def jsJoin (l : List String) (sep : String) : String := String.intercalate sep l

/-- JavaScript falsiness of an optional string value:
`undefined`, `null` and the empty string are falsy. -/
def optStrFalsy : Option String → Bool
  | none => true
  | some s => s.length == 0

/-- `/[A-Z]/.test(s)` -/
def hasUppercase (s : String) : Bool := s.data.any Char.isUpper

/-- `/[a-z]/.test(s)` -/
def hasLowercase (s : String) : Bool := s.data.any Char.isLower

/-- `/[0-9]/.test(s)` -/
def hasDigitChar (s : String) : Bool := s.data.any Char.isDigit

/-- `/[^A-Za-z0-9]/.test(s)` -/
def hasSymbolChar (s : String) : Bool := s.data.any (fun c => !c.isAlphanum)

/-- A finding, as produced by the checks (spec §3 "Issue").
The `cve` field may hold a CWE identifier or the literal `"N/A"`. -/
structure Issue where
  severity : String
  category : String
  title : String
  description : String
  location : String
  recommendation : String
  cve : String
deriving DecidableEq

/-- The `configSummary` component of an analysis result. -/
structure ConfigSummary where
  totalInterfaces : Nat
  totalVTYLines : Nat
  totalACLs : Nat
deriving DecidableEq

/-- The result of the password-strength sub-analyzer. -/
structure PasswordAnalysis where
  strength : String
  score : Int
  issues : List Issue
deriving DecidableEq

/-- Count of issues whose lowercased severity is `"critical"`
(the `switch(issue.severity.toLowerCase())` tally of the source). -/
def countCritical : List Issue → Nat
  | [] => 0
  | i :: rest => (if jsToLower i.severity = "critical" then 1 else 0) + countCritical rest

/-- Count of issues whose lowercased severity is `"high"`. -/
def countHigh : List Issue → Nat
  | [] => 0
  | i :: rest => (if jsToLower i.severity = "high" then 1 else 0) + countHigh rest

/-- Count of issues whose lowercased severity is `"medium"`. -/
def countMedium : List Issue → Nat
  | [] => 0
  | i :: rest => (if jsToLower i.severity = "medium" then 1 else 0) + countMedium rest

/-- Count of issues whose lowercased severity is `"low"`. -/
def countLow : List Issue → Nat
  | [] => 0
  | i :: rest => (if jsToLower i.severity = "low" then 1 else 0) + countLow rest

/-- An issue whose severity is one of the four values of the closed
severity enum (after lowercasing, as the counting switch sees it). -/
def recognizedSeverity (i : Issue) : Prop :=
  jsToLower i.severity = "critical" ∨ jsToLower i.severity = "high" ∨
  jsToLower i.severity = "medium" ∨ jsToLower i.severity = "low"

namespace Analyzer

/-- `src/backend/src/services/analyzer.js`: the weak-password dictionary. -/
def WEAK_PASSWORDS : List String :=
  ["cisco", "admin", "password", "123456", "letmein",
   "welcome", "default", "secret", "changeme", "12345"]

/-- Parsed interface block (`parseConfiguration`). -/
structure Interface where
  name : String
  ipAddress : Option String
  status : String
  acl : Option String
  lineNumber : Nat
deriving DecidableEq

/-- Parsed VTY line block (`parseConfiguration`). -/
structure VTYLine where
  range : String
  password : Option String
  transport : List String
  accessClass : Option String
  lineNumber : Nat
deriving DecidableEq

/-- The structured configuration model built by `parseConfiguration`. -/
structure ParsedConfig where
  interfaces : List Interface
  vtyLines : List VTYLine
  acls : List String
  summary : ConfigSummary
deriving DecidableEq

/-- State of the single forward parsing pass: the finalized blocks, the
two in-progress block pointers (`currentInterface` / `currentVTY`), the
ACL list and the three summary counters. -/
structure ParseState where
  doneInterfaces : List Interface
  curInterface : Option Interface
  doneVTY : List VTYLine
  curVTY : Option VTYLine
  acls : List String
  nInterfaces : Nat
  nVTY : Nat
  nACL : Nat

/-- Initial parse state. -/
def initState : ParseState :=
  { doneInterfaces := [], curInterface := none, doneVTY := [], curVTY := none,
    acls := [], nInterfaces := 0, nVTY := 0, nACL := 0 }

/-- Mutate the current interface block, if one is open
(`currentInterface && ...` in the source). -/
def mapCurInterface (f : Interface → Interface) (st : ParseState) : ParseState :=
  match st.curInterface with
  | some x => { st with curInterface := some (f x) }
  | none => st

/-- Mutate the current VTY block, if one is open. -/
def mapCurVTY (f : VTYLine → VTYLine) (st : ParseState) : ParseState :=
  match st.curVTY with
  | some x => { st with curVTY := some (f x) }
  | none => st

/-- Close the current interface block, appending it to the finalized list. -/
def flushInterface (st : ParseState) : ParseState :=
  { st with doneInterfaces := st.doneInterfaces ++ st.curInterface.toList,
            curInterface := none }

/-- Close the current VTY block. -/
def flushVTY (st : ParseState) : ParseState :=
  { st with doneVTY := st.doneVTY ++ st.curVTY.toList, curVTY := none }

/-- One iteration of the parsing loop of `parseConfiguration`
(analyzer.js lines 112–185): every condition is checked in order
against the same line, mutating the current blocks. -/
def parseLine (i : Nat) (line : String) (st : ParseState) : ParseState :=
  let st := if jsStartsWith line "interface " then
      let st := flushInterface st
      { st with
        curInterface := some { name := jsReplace line "interface " "", ipAddress := none,
                               status := "unknown", acl := none, lineNumber := i + 1 },
        nInterfaces := st.nInterfaces + 1 }
    else st
  let st := if jsIncludes line "ip address " then
      mapCurInterface (fun f => { f with ipAddress := some (jsTrim (jsReplace line "ip address " "")) }) st
    else st
  let st := if line == "no shutdown" then
      mapCurInterface (fun f => { f with status := "active" }) st
    else st
  let st := if line == "shutdown" then
      mapCurInterface (fun f => { f with status := "shutdown" }) st
    else st
  let st := if jsIncludes line "ip access-group" then
      mapCurInterface (fun f => { f with acl := jsToken (jsSplit line ' ') 2 }) st
    else st
  let st := if jsStartsWith line "line vty" then
      let st := flushVTY st
      { st with
        curVTY := some { range := jsReplace line "line vty " "", password := none,
                         transport := [], accessClass := none, lineNumber := i + 1 },
        nVTY := st.nVTY + 1 }
    else st
  let st := if jsStartsWith line "password " then
      mapCurVTY (fun v => { v with password := some (jsTrim (jsReplace line "password " "")) }) st
    else st
  let st := if jsIncludes line "transport input" then
      mapCurVTY (fun v => { v with transport := jsSplit (jsReplace line "transport input " "") ' ' }) st
    else st
  let st := if jsIncludes line "access-class" then
      mapCurVTY (fun v => { v with accessClass := jsToken (jsSplit line ' ') 1 }) st
    else st
  let st := if jsStartsWith line "access-list " || jsStartsWith line "ip access-list" then
      { st with acls := st.acls ++ [line], nACL := st.nACL + 1 }
    else st
  if line == "!" then flushVTY (flushInterface st) else st

/-- `parseConfiguration(lines)` of analyzer.js. -/
def parseConfiguration (lines : List String) : ParsedConfig :=
  let st := lines.enum.foldl (fun st p => parseLine p.1 p.2 st) initState
  let st := flushVTY (flushInterface st)
  { interfaces := st.doneInterfaces, vtyLines := st.doneVTY, acls := st.acls,
    summary := { totalInterfaces := st.nInterfaces, totalVTYLines := st.nVTY,
                 totalACLs := st.nACL } }

/-- CRITICAL weak/default-password finding (CWE-521). -/
def weakPasswordIssue (idx : Nat) (password : String) : Issue :=
  { severity := "CRITICAL", category := "Weak Authentication",
    title := "Weak password detected: \"" ++ password ++ "\"",
    description := "Line " ++ toString (idx + 1) ++ ": Found weak or default password \"" ++
      password ++ "\". This is a critical security vulnerability.",
    location := "Line " ++ toString (idx + 1),
    recommendation := "Use a strong password with at least 12 characters including uppercase, lowercase, numbers, and special characters.",
    cve := "CWE-521" }

/-- HIGH too-short-password finding (CWE-521). -/
def shortPasswordIssue (idx : Nat) (password : String) : Issue :=
  { severity := "HIGH", category := "Weak Authentication",
    title := "Password too short",
    description := "Line " ++ toString (idx + 1) ++ ": Password is only " ++
      toString password.length ++ " characters. Minimum recommended length is 8 characters.",
    location := "Line " ++ toString (idx + 1),
    recommendation := "Use passwords with at least 8-12 characters.",
    cve := "CWE-521" }

/-- HIGH plaintext `enable password` finding (CWE-256). -/
def enablePasswordIssue (idx : Nat) : Issue :=
  { severity := "HIGH", category := "Weak Authentication",
    title := "Unencrypted enable password",
    description := "Line " ++ toString (idx + 1) ++
      ": Using \"enable password\" which stores password in plain text.",
    location := "Line " ++ toString (idx + 1),
    recommendation := "Use \"enable secret\" instead, which stores an encrypted hash.",
    cve := "CWE-256" }

/-- Per-line body of `detectWeakPasswords` (analyzer.js lines 198–241).
The credential is the second whitespace token of the line; an
out-of-bounds access is replaced by the empty string. -/
def weakPasswordLineIssues (idx : Nat) (line : String) : List Issue :=
  (if jsStartsWith line "password " || jsIncludes line "secret " then
    let password := (jsToken (jsSplit line ' ') 1).getD ""
    (if WEAK_PASSWORDS.contains password then [weakPasswordIssue idx password] else []) ++
    (if password.length < 8 then [shortPasswordIssue idx password] else [])
  else []) ++
  (if jsStartsWith line "enable password " then [enablePasswordIssue idx] else [])

/-- `detectWeakPasswords(lines)` of analyzer.js. -/
def detectWeakPasswords (lines : List String) : List Issue :=
  lines.enum.flatMap fun p => weakPasswordLineIssues p.1 p.2

/-- Per-line body of `detectWeakPasswords` with the JavaScript failure
mode made explicit: reading `password.length` when the indexing
`line.split(' ')[1]` produced `undefined` would raise a `TypeError`. -/
def weakPasswordLineIssuesE (idx : Nat) (line : String) : Except String (List Issue) :=
  if jsStartsWith line "password " || jsIncludes line "secret " then
    match jsToken (jsSplit line ' ') 1 with
    | some password =>
      Except.ok
        (((if WEAK_PASSWORDS.contains password then [weakPasswordIssue idx password] else []) ++
          (if password.length < 8 then [shortPasswordIssue idx password] else [])) ++
         (if jsStartsWith line "enable password " then [enablePasswordIssue idx] else []))
    | none => Except.error "TypeError: Cannot read properties of undefined"
  else
    Except.ok (if jsStartsWith line "enable password " then [enablePasswordIssue idx] else [])

/-- Iterate `weakPasswordLineIssuesE`, propagating an exception. -/
def weakPasswordsGoE : List (Nat × String) → Except String (List Issue)
  | [] => Except.ok []
  | p :: rest =>
    match weakPasswordLineIssuesE p.1 p.2 with
    | Except.error e => Except.error e
    | Except.ok is =>
      match weakPasswordsGoE rest with
      | Except.error e => Except.error e
      | Except.ok more => Except.ok (is ++ more)

/-- `detectWeakPasswords` with the JavaScript exception behaviour made
explicit. -/
def detectWeakPasswordsE (lines : List String) : Except String (List Issue) :=
  weakPasswordsGoE lines.enum

/-- CRITICAL Telnet finding (CWE-319). -/
def telnetIssue (idx : Nat) : Issue :=
  { severity := "CRITICAL", category := "Insecure Service",
    title := "Telnet enabled",
    description := "Line " ++ toString (idx + 1) ++
      ": Telnet (port 23) is enabled. Telnet sends data in plain text including passwords.",
    location := "Line " ++ toString (idx + 1),
    recommendation := "Disable Telnet and use SSH (port 22) for secure remote access. Configure with \"transport input ssh\".",
    cve := "CWE-319" }

/-- HIGH HTTP-server finding (CWE-319). -/
def httpIssue (idx : Nat) : Issue :=
  { severity := "HIGH", category := "Insecure Service",
    title := "HTTP server enabled",
    description := "Line " ++ toString (idx + 1) ++
      ": HTTP (port 80) is enabled. HTTP traffic is unencrypted.",
    location := "Line " ++ toString (idx + 1),
    recommendation := "Disable HTTP and enable HTTPS instead using \"ip http secure-server\".",
    cve := "CWE-319" }

/-- Per-line body of `checkOpenPorts` (analyzer.js lines 254–280). -/
def openPortsLineIssues (idx : Nat) (line : String) : List Issue :=
  (if jsIncludes line "transport input telnet" || jsIncludes line "transport input all" then
    [telnetIssue idx] else []) ++
  (if jsIncludes line "ip http server" && !jsStartsWith line "no " then
    [httpIssue idx] else [])

/-- `checkOpenPorts(lines)` of analyzer.js. -/
def checkOpenPorts (lines : List String) : List Issue :=
  lines.enum.flatMap fun p => openPortsLineIssues p.1 p.2

/-- HIGH missing access-class finding on a VTY line (CWE-284). -/
def vtyACLIssue (vty : VTYLine) : Issue :=
  { severity := "HIGH", category := "Missing Access Control",
    title := "No access-class on VTY line",
    description := "VTY line " ++ vty.range ++
      " has no access-class configured. This allows anyone to attempt remote access.",
    location := "Line " ++ toString vty.lineNumber,
    recommendation := "Configure an access-class to restrict remote access: \"access-class <acl-number> in\".",
    cve := "CWE-284" }

/-- MEDIUM missing ACL finding on an active interface (CWE-284). -/
def ifaceACLIssue (iface : Interface) : Issue :=
  { severity := "MEDIUM", category := "Missing Access Control",
    title := "No ACL on interface " ++ iface.name,
    description := "Interface " ++ iface.name ++
      " is active but has no access control list configured.",
    location := "Line " ++ toString iface.lineNumber,
    recommendation := "Consider adding an ACL to filter traffic: \"ip access-group <acl-name> in/out\".",
    cve := "CWE-284" }

/-- `analyzeACLs(lines, parsedConfig)` of analyzer.js. -/
def analyzeACLs (_lines : List String) (parsedConfig : ParsedConfig) : List Issue :=
  (parsedConfig.vtyLines.flatMap fun vty =>
    if optStrFalsy vty.accessClass then [vtyACLIssue vty] else []) ++
  (parsedConfig.interfaces.flatMap fun iface =>
    if iface.status == "active" && optStrFalsy iface.acl then [ifaceACLIssue iface] else [])

/-- LOW unused-interface finding. -/
def unusedInterfaceIssue (iface : Interface) : Issue :=
  { severity := "LOW", category := "Configuration Optimization",
    title := "Unused interface: " ++ iface.name,
    description := "Interface " ++ iface.name ++
      " is shutdown or not configured. Unused interfaces should be disabled for security.",
    location := "Line " ++ toString iface.lineNumber,
    recommendation := "If not needed, ensure interface is shutdown and consider removing unnecessary configuration.",
    cve := "N/A" }

/-- `findUnusedInterfaces(lines, parsedConfig)` of analyzer.js. -/
def findUnusedInterfaces (_lines : List String) (parsedConfig : ParsedConfig) : List Issue :=
  parsedConfig.interfaces.flatMap fun iface =>
    if iface.status == "shutdown" || iface.status == "unknown" then
      [unusedInterfaceIssue iface] else []

/-- HIGH SSH-not-configured finding. -/
def sshIssue : Issue :=
  { severity := "HIGH", category := "Security Best Practice",
    title := "SSH not configured",
    description := "SSH (Secure Shell) is not configured for remote access. SSH provides encrypted communication.",
    location := "Global configuration",
    recommendation := "Configure SSH with: \"crypto key generate rsa\" and \"transport input ssh\" on VTY lines.",
    cve := "N/A" }

/-- LOW missing-banner finding. -/
def bannerIssue : Issue :=
  { severity := "LOW", category := "Security Best Practice",
    title := "No login banner configured",
    description := "Login banners warn unauthorized users and are important for legal compliance.",
    location := "Global configuration",
    recommendation := "Add a login banner: \"banner login # Authorized access only #\".",
    cve := "N/A" }

/-- MEDIUM missing-logging finding. -/
def loggingIssue : Issue :=
  { severity := "MEDIUM", category := "Security Best Practice",
    title := "Logging not configured",
    description := "No logging configuration found. Logging is essential for security monitoring and incident response.",
    location := "Global configuration",
    recommendation := "Configure logging: \"logging buffered\" and \"logging host <syslog-server>\".",
    cve := "N/A" }

/-- MEDIUM missing `service password-encryption` finding (CWE-256). -/
def encryptionIssue : Issue :=
  { severity := "MEDIUM", category := "Security Best Practice",
    title := "Password encryption not enabled",
    description := "Service password-encryption is not enabled. Passwords may be visible in plain text in the configuration.",
    location := "Global configuration",
    recommendation := "Enable password encryption: \"service password-encryption\".",
    cve := "CWE-256" }

/-- `checkSecurityBestPractices(lines)` of analyzer.js: scans the joined
configuration text for the absence of four substrings. -/
def checkSecurityBestPractices (lines : List String) : List Issue :=
  let configText := jsJoin lines "\n"
  (if !jsIncludes configText "transport input ssh" then [sshIssue] else []) ++
  (if !jsIncludes configText "banner" then [bannerIssue] else []) ++
  (if !jsIncludes configText "logging" then [loggingIssue] else []) ++
  (if !jsIncludes configText "service password-encryption" then [encryptionIssue] else [])

/-- `calculateSecurityScore(results)` of analyzer.js (lines 422–434). -/
def calculateSecurityScore (critical high medium low : Nat) : Int :=
  max 0 (100 - (critical : Int) * 15 - (high : Int) * 10 - (medium : Int) * 5 - (low : Int) * 2)

/-- `generateRecommendations(results)` of analyzer.js. -/
def generateRecommendations (critical high : Nat) (securityScore : Int) : List String :=
  (if 0 < critical then
    ["🔴 URGENT: Address all critical vulnerabilities immediately. These pose severe security risks."]
   else []) ++
  (if 0 < high then
    ["🟠 HIGH PRIORITY: Fix high-severity issues as soon as possible."]
   else []) ++
  (if securityScore < 50 then
    ["⚠️ Overall security posture is poor. Consider a comprehensive security review."]
   else if securityScore < 75 then
    ["⚠️ Security posture needs improvement. Focus on high and medium severity issues."]
   else if 90 ≤ securityScore then
    ["✅ Good security posture! Continue monitoring and maintaining security configurations."]
   else []) ++
  ["📚 Refer to Cisco security best practices documentation for detailed guidance.",
   "🔄 Regularly audit and update your network configurations."]

/-- The result object of `analyzeConfiguration` of analyzer.js. -/
structure AnalysisResult where
  totalIssues : Nat
  critical : Nat
  high : Nat
  medium : Nat
  low : Nat
  securityScore : Int
  issues : List Issue
  recommendations : List String
  configSummary : ConfigSummary
deriving DecidableEq

/-- `analyzeConfiguration(configText)` of analyzer.js (lines 25–89). -/
def analyzeConfiguration (configText : String) : AnalysisResult :=
  let lines := (jsSplit configText '\n').map jsTrim
  let parsedConfig := parseConfiguration lines
  let weakPasswords := detectWeakPasswords lines
  let openPorts := checkOpenPorts lines
  let missingACLs := analyzeACLs lines parsedConfig
  let unusedInterfaces := findUnusedInterfaces lines parsedConfig
  let securityBestPractices := checkSecurityBestPractices lines
  let allIssues := weakPasswords ++ openPorts ++ missingACLs ++ unusedInterfaces ++
    securityBestPractices
  let critical := countCritical allIssues
  let high := countHigh allIssues
  let medium := countMedium allIssues
  let low := countLow allIssues
  let securityScore := calculateSecurityScore critical high medium low
  { totalIssues := allIssues.length, critical := critical, high := high,
    medium := medium, low := low, securityScore := securityScore,
    issues := allIssues,
    recommendations := generateRecommendations critical high securityScore,
    configSummary := parsedConfig.summary }

end Analyzer

namespace FullAnalyzer

/-- `src/unnamed/part_004`: the extended weak-password dictionary. -/
def WEAK_PASSWORDS : List String :=
  ["cisco", "admin", "password", "123456", "letmein",
   "welcome", "default", "secret", "changeme", "12345",
   "1234", "12345678", "qwerty", "abc123", "password123",
   "admin123", "root", "user", "pass", "123"]

/-- CRITICAL no-password finding of `analyzePasswordStrength`. -/
def noPasswordIssue : Issue :=
  { severity := "CRITICAL", category := "Weak Authentication",
    title := "No password provided",
    description := "Router authentication password is empty or not provided.",
    location := "Router Authentication",
    recommendation := "Always use a strong password for router access.",
    cve := "CWE-521" }

/-- CRITICAL dictionary-match finding of `analyzePasswordStrength`. -/
def veryWeakPasswordIssue (password : String) : Issue :=
  { severity := "CRITICAL", category := "Weak Authentication",
    title := "Very weak password detected: \"" ++ password ++ "\"",
    description := "The password \"" ++ password ++
      "\" is a commonly used weak password that is easily guessable.",
    location := "Router Authentication",
    recommendation := "Use a strong password with at least 12 characters, including uppercase, lowercase, numbers, and symbols.",
    cve := "CWE-521" }

/-- CRITICAL too-short finding of `analyzePasswordStrength`. -/
def tooShortIssue (password : String) : Issue :=
  { severity := "CRITICAL", category := "Weak Authentication",
    title := "Password too short",
    description := "Password is only " ++ toString password.length ++
      " characters. Short passwords are easily cracked.",
    location := "Router Authentication",
    recommendation := "Use passwords with at least 12-16 characters for better security.",
    cve := "CWE-521" }

/-- HIGH should-be-longer finding of `analyzePasswordStrength`. -/
def shouldBeLongerIssue (password : String) : Issue :=
  { severity := "HIGH", category := "Weak Authentication",
    title := "Password should be longer",
    description := "Password is " ++ toString password.length ++
      " characters. Consider using 12+ characters for better security.",
    location := "Router Authentication",
    recommendation := "Use passwords with at least 12-16 characters.",
    cve := "CWE-521" }

/-- HIGH only-numbers finding of `analyzePasswordStrength`. -/
def onlyNumbersIssue : Issue :=
  { severity := "HIGH", category := "Weak Authentication",
    title := "Password contains only numbers",
    description := "Password consists only of numbers, making it easier to crack.",
    location := "Router Authentication",
    recommendation := "Use a mix of uppercase, lowercase, numbers, and special characters.",
    cve := "CWE-521" }

/-- HIGH only-letters finding of `analyzePasswordStrength`. -/
def onlyLettersIssue : Issue :=
  { severity := "HIGH", category := "Weak Authentication",
    title := "Password contains only letters",
    description := "Password consists only of letters, making it easier to crack.",
    location := "Router Authentication",
    recommendation := "Use a mix of uppercase, lowercase, numbers, and special characters.",
    cve := "CWE-521" }

/-- HIGH common-words finding of `analyzePasswordStrength`. -/
def commonWordsIssue : Issue :=
  { severity := "HIGH", category := "Weak Authentication",
    title := "Password contains common words",
    description := "Password contains common dictionary words, making it vulnerable to dictionary attacks.",
    location := "Router Authentication",
    recommendation := "Avoid using common words. Use a combination of random words or a passphrase.",
    cve := "CWE-521" }

/-- The common dictionary substrings checked by `analyzePasswordStrength`. -/
def commonWords : List String :=
  ["password", "admin", "root", "user", "login", "welcome"]

/-- The length finding accumulated by `analyzePasswordStrength`:
CRITICAL below 8 characters, HIGH below 12. -/
def lengthIssueList (password : String) : List Issue :=
  if password.length < 8 then [tooShortIssue password]
  else if password.length < 12 then [shouldBeLongerIssue password]
  else []

/-- The `/^[0-9]+$/` pattern finding of `analyzePasswordStrength`. -/
def digitsIssueList (password : String) : List Issue :=
  if !password.data.isEmpty && password.data.all Char.isDigit then [onlyNumbersIssue] else []

/-- The `/^[a-z]+$/i` pattern finding of `analyzePasswordStrength`. -/
def lettersIssueList (password : String) : List Issue :=
  if !password.data.isEmpty && password.data.all Char.isAlpha then [onlyLettersIssue] else []

/-- The common-dictionary-substring finding of `analyzePasswordStrength`. -/
def commonWordsIssueList (password : String) : List Issue :=
  if commonWords.any (fun word => jsIncludes (jsToLower password) word) then
    [commonWordsIssue] else []

/-- `analyzePasswordStrength(password)` of `src/unnamed/part_004`
(lines 16–138). The `null`/absent-credential case is handled by the
caller (`analyzeConfiguration`); an empty string reaches the first
branch exactly as in the source. -/
def analyzePasswordStrength (password : String) : PasswordAnalysis :=
  if password.length == 0 then
    { strength := "CRITICAL", score := 0, issues := [noPasswordIssue] }
  else if WEAK_PASSWORDS.contains (jsToLower password) then
    { strength := "CRITICAL", score := 10, issues := [veryWeakPasswordIssue password] }
  else
    let issues := lengthIssueList password ++ digitsIssueList password ++
      lettersIssueList password ++ commonWordsIssueList password
    let strength : String :=
      if issues.any (fun i => i.severity == "CRITICAL") then "CRITICAL"
      else if issues.any (fun i => i.severity == "HIGH") then "WEAK"
      else if decide (12 ≤ password.length) && hasUppercase password && hasLowercase password &&
              hasDigitChar password && hasSymbolChar password then "STRONG"
      else if decide (12 ≤ password.length) then "MODERATE"
      else "STRONG"
    let score : Int :=
      if issues.any (fun i => i.severity == "CRITICAL") then 20
      else if issues.any (fun i => i.severity == "HIGH") then 40
      else if decide (12 ≤ password.length) && hasUppercase password && hasLowercase password &&
              hasDigitChar password && hasSymbolChar password then 100
      else if decide (12 ≤ password.length) then 70
      else 100
    { strength := strength, score := score, issues := issues }

/-- Parsed interface block (part_004 `parseConfiguration`; unlike the
backend variant, no `ipAddress` field is tracked). -/
structure Interface where
  name : String
  status : String
  acl : Option String
  lineNumber : Nat
deriving DecidableEq

/-- Parsed VTY line block (part_004 `parseConfiguration`). -/
structure VTYLine where
  range : String
  password : Option String
  transport : List String
  accessClass : Option String
  lineNumber : Nat
deriving DecidableEq

/-- The structured configuration model of part_004. -/
structure ParsedConfig where
  interfaces : List Interface
  vtyLines : List VTYLine
  acls : List String
  summary : ConfigSummary
deriving DecidableEq

/-- Parsing state, as in the backend variant. -/
structure ParseState where
  doneInterfaces : List Interface
  curInterface : Option Interface
  doneVTY : List VTYLine
  curVTY : Option VTYLine
  acls : List String
  nInterfaces : Nat
  nVTY : Nat
  nACL : Nat

/-- Initial parse state. -/
def initState : ParseState :=
  { doneInterfaces := [], curInterface := none, doneVTY := [], curVTY := none,
    acls := [], nInterfaces := 0, nVTY := 0, nACL := 0 }

/-- Mutate the current interface block, if one is open. -/
def mapCurInterface (f : Interface → Interface) (st : ParseState) : ParseState :=
  match st.curInterface with
  | some x => { st with curInterface := some (f x) }
  | none => st

/-- Mutate the current VTY block, if one is open. -/
def mapCurVTY (f : VTYLine → VTYLine) (st : ParseState) : ParseState :=
  match st.curVTY with
  | some x => { st with curVTY := some (f x) }
  | none => st

/-- Close the current interface block. -/
def flushInterface (st : ParseState) : ParseState :=
  { st with doneInterfaces := st.doneInterfaces ++ st.curInterface.toList,
            curInterface := none }

/-- Close the current VTY block. -/
def flushVTY (st : ParseState) : ParseState :=
  { st with doneVTY := st.doneVTY ++ st.curVTY.toList, curVTY := none }

/-- The fallback-mode comment filter at the top of the part_004 parsing
loop: such comment lines are skipped entirely (`continue`). -/
def isFallbackComment (line : String) : Bool :=
  jsStartsWith (jsTrim line) "!" &&
    (jsIncludes line "Fallback Mode" || jsIncludes line "fallback" ||
     jsIncludes line "recommendations" || jsIncludes line "Best Practices" ||
     jsIncludes line "demonstration")

/-- One iteration of the part_004 parsing loop (lines 232–302). -/
def parseLine (i : Nat) (line : String) (st : ParseState) : ParseState :=
  if isFallbackComment line then st
  else
    let st := if jsStartsWith line "interface " then
        let st := flushInterface st
        { st with
          curInterface := some { name := jsReplace line "interface " "",
                                 status := "unknown", acl := none, lineNumber := i + 1 },
          nInterfaces := st.nInterfaces + 1 }
      else st
    let st := if line == "no shutdown" then
        mapCurInterface (fun f => { f with status := "active" }) st
      else st
    let st := if line == "shutdown" then
        mapCurInterface (fun f => { f with status := "shutdown" }) st
      else st
    let st := if jsStartsWith line "line vty" then
        let st := flushVTY st
        { st with
          curVTY := some { range := jsReplace line "line vty " "", password := none,
                           transport := [], accessClass := none, lineNumber := i + 1 },
          nVTY := st.nVTY + 1 }
      else st
    let st := if jsStartsWith line "password " then
        mapCurVTY (fun v => { v with password := some (jsTrim (jsReplace line "password " "")) }) st
      else st
    let st := if jsIncludes line "transport input" then
        mapCurVTY (fun v => { v with transport := jsSplit (jsReplace line "transport input " "") ' ' }) st
      else st
    let st := if jsStartsWith line "access-list " || jsStartsWith line "ip access-list" then
        { st with acls := st.acls ++ [line], nACL := st.nACL + 1 }
      else st
    if line == "!" then flushVTY (flushInterface st) else st

/-- `parseConfiguration(lines)` of part_004. -/
def parseConfiguration (lines : List String) : ParsedConfig :=
  let st := lines.enum.foldl (fun st p => parseLine p.1 p.2 st) initState
  let st := flushVTY (flushInterface st)
  { interfaces := st.doneInterfaces, vtyLines := st.doneVTY, acls := st.acls,
    summary := { totalInterfaces := st.nInterfaces, totalVTYLines := st.nVTY,
                 totalACLs := st.nACL } }

/-- CRITICAL weak/default-password finding of part_004. -/
def weakPasswordIssue (idx : Nat) (password : String) : Issue :=
  { severity := "CRITICAL", category := "Weak Authentication",
    title := "Weak password detected: \"" ++ password ++ "\"",
    description := "Line " ++ toString (idx + 1) ++ ": Found weak or default password \"" ++
      password ++ "\".",
    location := "Line " ++ toString (idx + 1),
    recommendation := "Use a strong password with at least 12 characters.",
    cve := "CWE-521" }

/-- HIGH too-short-password finding of part_004. -/
def shortPasswordIssue (idx : Nat) (password : String) : Issue :=
  { severity := "HIGH", category := "Weak Authentication",
    title := "Password too short",
    description := "Line " ++ toString (idx + 1) ++ ": Password is only " ++
      toString password.length ++ " characters.",
    location := "Line " ++ toString (idx + 1),
    recommendation := "Use passwords with at least 8-12 characters.",
    cve := "CWE-521" }

/-- HIGH plaintext `enable password` finding of part_004 (CWE-256). -/
def enablePasswordIssue (idx : Nat) : Issue :=
  { severity := "HIGH", category := "Weak Authentication",
    title := "Unencrypted enable password",
    description := "Line " ++ toString (idx + 1) ++
      ": Using \"enable password\" stores password in plain text.",
    location := "Line " ++ toString (idx + 1),
    recommendation := "Use \"enable secret\" instead.",
    cve := "CWE-256" }

/-- The fallback-comment filter of part_004 `detectWeakPasswords`. -/
def isWeakPwSkipComment (line : String) : Bool :=
  jsStartsWith (jsTrim line) "!" &&
    (jsIncludes line "Fallback Mode" || jsIncludes line "fallback" ||
     jsIncludes line "demonstration" || jsIncludes line "recommendations")

/-- Per-line body of part_004 `detectWeakPasswords` (lines 313–368).
The extracted credential is additionally skipped when it is falsy or
contains `"!"` (the comment/recommendation guard of the source); that
`return` also skips the `enable password` check for the same line. -/
def weakPasswordLineIssues (idx : Nat) (line : String) : List Issue :=
  if isWeakPwSkipComment line then []
  else if jsStartsWith line "password " || jsIncludes line "secret " then
    let passwordOpt := jsToken (jsSplit line ' ') 1
    if optStrFalsy passwordOpt || jsIncludes (passwordOpt.getD "") "!" then []
    else
      let password := passwordOpt.getD ""
      (if WEAK_PASSWORDS.contains password then [weakPasswordIssue idx password] else []) ++
      (if password.length < 8 then [shortPasswordIssue idx password] else []) ++
      (if jsStartsWith line "enable password " then [enablePasswordIssue idx] else [])
  else
    (if jsStartsWith line "enable password " then [enablePasswordIssue idx] else [])

/-- `detectWeakPasswords(lines)` of part_004. -/
def detectWeakPasswords (lines : List String) : List Issue :=
  lines.enum.flatMap fun p => weakPasswordLineIssues p.1 p.2

/-- CRITICAL Telnet finding of part_004 (CWE-319). -/
def telnetIssue (idx : Nat) : Issue :=
  { severity := "CRITICAL", category := "Insecure Service",
    title := "Telnet enabled",
    description := "Line " ++ toString (idx + 1) ++ ": Telnet (port 23) is enabled.",
    location := "Line " ++ toString (idx + 1),
    recommendation := "Use SSH instead of Telnet.",
    cve := "CWE-319" }

/-- HIGH HTTP-server finding of part_004 (CWE-319). -/
def httpIssue (idx : Nat) : Issue :=
  { severity := "HIGH", category := "Insecure Service",
    title := "HTTP server enabled",
    description := "Line " ++ toString (idx + 1) ++ ": HTTP (port 80) is enabled.",
    location := "Line " ++ toString (idx + 1),
    recommendation := "Use HTTPS instead.",
    cve := "CWE-319" }

/-- The fallback-comment filter of part_004 `checkOpenPorts`. -/
def isOpenPortsSkipComment (line : String) : Bool :=
  jsStartsWith (jsTrim line) "!" &&
    (jsIncludes line "Fallback Mode" || jsIncludes line "fallback" ||
     jsIncludes line "recommendations" || jsIncludes line "Best Practices")

/-- Per-line body of part_004 `checkOpenPorts` (lines 379–413). -/
def openPortsLineIssues (idx : Nat) (line : String) : List Issue :=
  if isOpenPortsSkipComment line then []
  else
    (if jsIncludes line "transport input telnet" || jsIncludes line "transport input all" then
      [telnetIssue idx] else []) ++
    (if jsIncludes line "ip http server" && !jsStartsWith line "no " &&
        !jsIncludes line "!" then
      [httpIssue idx] else [])

/-- `checkOpenPorts(lines)` of part_004. -/
def checkOpenPorts (lines : List String) : List Issue :=
  lines.enum.flatMap fun p => openPortsLineIssues p.1 p.2

/-- HIGH missing access-class finding of part_004 (CWE-284). -/
def vtyACLIssue (vty : VTYLine) : Issue :=
  { severity := "HIGH", category := "Missing Access Control",
    title := "No access-class on VTY line",
    description := "VTY line " ++ vty.range ++ " has no access-class configured.",
    location := "Line " ++ toString vty.lineNumber,
    recommendation := "Configure an access-class.",
    cve := "CWE-284" }

/-- MEDIUM missing ACL finding of part_004 (CWE-284). -/
def ifaceACLIssue (iface : Interface) : Issue :=
  { severity := "MEDIUM", category := "Missing Access Control",
    title := "No ACL on interface " ++ iface.name,
    description := "Interface " ++ iface.name ++ " has no access control list.",
    location := "Line " ++ toString iface.lineNumber,
    recommendation := "Consider adding an ACL.",
    cve := "CWE-284" }

/-- LOW unused-interface finding of part_004. -/
def unusedInterfaceIssue (iface : Interface) : Issue :=
  { severity := "LOW", category := "Configuration Optimization",
    title := "Unused interface: " ++ iface.name,
    description := "Interface " ++ iface.name ++ " is shutdown or not configured.",
    location := "Line " ++ toString iface.lineNumber,
    recommendation := "Ensure interface is properly shutdown if not needed.",
    cve := "N/A" }

/-- `analyzeACLs(lines, parsedConfig)` of part_004 (in this variant the
interface loop also emits the LOW unused-interface finding). -/
def analyzeACLs (_lines : List String) (parsedConfig : ParsedConfig) : List Issue :=
  (parsedConfig.vtyLines.flatMap fun vty =>
    if optStrFalsy vty.accessClass then [vtyACLIssue vty] else []) ++
  (parsedConfig.interfaces.flatMap fun iface =>
    (if iface.status == "active" && optStrFalsy iface.acl then [ifaceACLIssue iface] else []) ++
    (if iface.status == "shutdown" || iface.status == "unknown" then
      [unusedInterfaceIssue iface] else []))

/-- HIGH SSH-not-configured finding of part_004. -/
def sshIssue : Issue :=
  { severity := "HIGH", category := "Security Best Practice",
    title := "SSH not configured",
    description := "SSH is not configured for remote access.",
    location := "Global configuration",
    recommendation := "Configure SSH for secure remote access.",
    cve := "N/A" }

/-- `checkSecurityBestPractices(lines)` of part_004 (SSH check only). -/
def checkSecurityBestPractices (lines : List String) : List Issue :=
  let configText := jsJoin lines "\n"
  if !jsIncludes configText "transport input ssh" then [sshIssue] else []

/-- `calculateSecurityScore(results, passwordAnalysis)` of part_004
(lines 492–536): the password strength tier selects the starting score
and the per-severity deduction weights. -/
def calculateSecurityScore (critical high medium low : Nat)
    (passwordAnalysis : Option PasswordAnalysis) : Int :=
  match passwordAnalysis with
  | some pa =>
    if pa.strength == "CRITICAL" then
      max 0 (20 - (critical : Int) * 5 - (high : Int) * 3 - (medium : Int) * 2 - (low : Int) * 1)
    else if pa.strength == "WEAK" then
      max 0 (40 - (critical : Int) * 8 - (high : Int) * 5 - (medium : Int) * 3 - (low : Int) * 1)
    else if pa.strength == "MODERATE" then
      max 0 (70 - (critical : Int) * 12 - (high : Int) * 8 - (medium : Int) * 4 - (low : Int) * 2)
    else
      max 0 (100 - (critical : Int) * 15 - (high : Int) * 10 - (medium : Int) * 5 - (low : Int) * 2)
  | none =>
    max 0 (100 - (critical : Int) * 15 - (high : Int) * 10 - (medium : Int) * 5 - (low : Int) * 2)

/-- `generateRecommendations(results)` of part_004. -/
def generateRecommendations (critical high : Nat) (securityScore : Int) : List String :=
  (if 0 < critical then
    ["🔴 URGENT: Address all critical vulnerabilities immediately."] else []) ++
  (if 0 < high then
    ["🟠 HIGH PRIORITY: Fix high-severity issues as soon as possible."] else []) ++
  (if securityScore < 50 then
    ["⚠️ Overall security posture is poor."] else []) ++
  ["📚 Refer to Cisco security best practices.",
   "🔄 Regularly audit your network configurations."]

/-- The result object of part_004 `analyzeConfiguration`, including the
optional password analysis. -/
structure AnalysisResult where
  totalIssues : Nat
  critical : Nat
  high : Nat
  medium : Nat
  low : Nat
  securityScore : Int
  issues : List Issue
  recommendations : List String
  passwordAnalysis : Option PasswordAnalysis
  configSummary : ConfigSummary
deriving DecidableEq

/-- `analyzeConfiguration(configText, userPassword)` of part_004
(lines 143–212). A `null` credential is `none`; the JavaScript
truthiness test `if (userPassword)` also rejects the empty string. -/
def analyzeConfiguration (configText : String) (userPassword : Option String) : AnalysisResult :=
  let lines := (jsSplit configText '\n').map jsTrim
  let parsedConfig := parseConfiguration lines
  let weakPasswords := detectWeakPasswords lines
  let openPorts := checkOpenPorts lines
  let missingACLs := analyzeACLs lines parsedConfig
  let securityBestPractices := checkSecurityBestPractices lines
  let passwordAnalysis : Option PasswordAnalysis :=
    match userPassword with
    | some p => if p.length != 0 then some (analyzePasswordStrength p) else none
    | none => none
  let passwordIssues : List Issue :=
    match passwordAnalysis with
    | some pa => if 0 < pa.issues.length then pa.issues else []
    | none => []
  let allIssues := weakPasswords ++ openPorts ++ missingACLs ++ securityBestPractices ++
    passwordIssues
  let critical := countCritical allIssues
  let high := countHigh allIssues
  let medium := countMedium allIssues
  let low := countLow allIssues
  let securityScore := calculateSecurityScore critical high medium low passwordAnalysis
  { totalIssues := allIssues.length, critical := critical, high := high,
    medium := medium, low := low, securityScore := securityScore,
    issues := allIssues,
    recommendations := generateRecommendations critical high securityScore,
    passwordAnalysis := passwordAnalysis,
    configSummary := parsedConfig.summary }

end FullAnalyzer

/-- The base score and per-severity deduction weights of spec §4.4,
selected by the password strength tier. -/
structure SpecTier where
  base : Int
  wCritical : Int
  wHigh : Int
  wMedium : Int
  wLow : Int
deriving DecidableEq

/-- Modelled from the spec (§4.4 table): `(base, ×critical, ×high,
×medium, ×low)` by password strength tier — CRITICAL `(20,5,3,2,1)`,
WEAK `(40,8,5,3,1)`, MODERATE `(70,12,8,4,2)`, STRONG `(100,15,10,5,2)`. -/
def specTierTable (strength : String) : SpecTier :=
  if strength == "CRITICAL" then ⟨20, 5, 3, 2, 1⟩
  else if strength == "WEAK" then ⟨40, 8, 5, 3, 1⟩
  else if strength == "MODERATE" then ⟨70, 12, 8, 4, 2⟩
  else ⟨100, 15, 10, 5, 2⟩

/-! ### Severity bookkeeping lemmas -/

/-- Boolean form of `recognizedSeverity` on the raw severity strings the
checks emit. -/
def sevOK (i : Issue) : Bool :=
  i.severity == "CRITICAL" || i.severity == "HIGH" ||
  i.severity == "MEDIUM" || i.severity == "LOW"

theorem recognized_of_sevOK {l : List Issue} (h : l.all sevOK = true) :
    ∀ i ∈ l, recognizedSeverity i := by
  intro i hi
  have hb := List.all_eq_true.mp h i hi
  simp only [sevOK, Bool.or_eq_true, beq_iff_eq] at hb
  rcases hb with ((h1 | h1) | h1) | h1
  · exact Or.inl (by rw [h1]; decide)
  · exact Or.inr (Or.inl (by rw [h1]; decide))
  · exact Or.inr (Or.inr (Or.inl (by rw [h1]; decide)))
  · exact Or.inr (Or.inr (Or.inr (by rw [h1]; decide)))

theorem recognized_flatMap {α : Type} (f : α → List Issue) (l : List α)
    (h : ∀ a, (f a).all sevOK = true) :
    ∀ i ∈ l.flatMap f, recognizedSeverity i := by
  intro i hi
  rcases List.mem_flatMap.mp hi with ⟨a, _, hia⟩
  exact recognized_of_sevOK (h a) i hia

/-- The four severity counters of the counting switch sum to the list
length whenever every severity is one of the four recognized values. -/
theorem counts_sum (issues : List Issue) (h : ∀ i ∈ issues, recognizedSeverity i) :
    countCritical issues + countHigh issues + countMedium issues + countLow issues =
      issues.length := by
  induction issues with
  | nil => rfl
  | cons a t ih =>
    have ha : recognizedSeverity a := h a (List.mem_cons_self a t)
    have ht := ih (fun i hi => h i (List.mem_cons_of_mem a hi))
    simp only [countCritical, countHigh, countMedium, countLow, List.length_cons]
    rcases ha with h1 | h1 | h1 | h1 <;> rw [h1] <;> simp <;> omega

theorem weakALine_all (idx : Nat) (line : String) :
    (Analyzer.weakPasswordLineIssues idx line).all sevOK = true := by
  unfold Analyzer.weakPasswordLineIssues
  dsimp only
  repeat' split
  all_goals rfl

theorem openALine_all (idx : Nat) (line : String) :
    (Analyzer.openPortsLineIssues idx line).all sevOK = true := by
  unfold Analyzer.openPortsLineIssues
  repeat' split
  all_goals rfl

theorem bestA_all (lines : List String) :
    (Analyzer.checkSecurityBestPractices lines).all sevOK = true := by
  unfold Analyzer.checkSecurityBestPractices
  dsimp only
  repeat' split
  all_goals rfl

theorem aclsA_recognized (lines : List String) (cfg : Analyzer.ParsedConfig) :
    ∀ i ∈ Analyzer.analyzeACLs lines cfg, recognizedSeverity i := by
  intro i hi
  unfold Analyzer.analyzeACLs at hi
  rcases List.mem_append.mp hi with hi | hi
  · exact recognized_flatMap _ _ (fun v => by split <;> rfl) i hi
  · exact recognized_flatMap _ _ (fun f => by split <;> rfl) i hi

theorem unusedA_recognized (lines : List String) (cfg : Analyzer.ParsedConfig) :
    ∀ i ∈ Analyzer.findUnusedInterfaces lines cfg, recognizedSeverity i := by
  intro i hi
  unfold Analyzer.findUnusedInterfaces at hi
  exact recognized_flatMap _ _ (fun f => by split <;> rfl) i hi

/-- Every issue produced by the backend engine carries a recognized
severity. -/
theorem analyzeA_recognized (text : String) :
    ∀ i ∈ (Analyzer.analyzeConfiguration text).issues, recognizedSeverity i := by
  intro i hi
  have hi' : i ∈
      Analyzer.detectWeakPasswords ((jsSplit text '\n').map jsTrim) ++
      Analyzer.checkOpenPorts ((jsSplit text '\n').map jsTrim) ++
      Analyzer.analyzeACLs ((jsSplit text '\n').map jsTrim)
        (Analyzer.parseConfiguration ((jsSplit text '\n').map jsTrim)) ++
      Analyzer.findUnusedInterfaces ((jsSplit text '\n').map jsTrim)
        (Analyzer.parseConfiguration ((jsSplit text '\n').map jsTrim)) ++
      Analyzer.checkSecurityBestPractices ((jsSplit text '\n').map jsTrim) := hi
  rcases List.mem_append.mp hi' with hi'' | hi''
  rotate_left
  · exact recognized_of_sevOK (bestA_all _) i hi''
  rcases List.mem_append.mp hi'' with hi3 | hi3
  rotate_left
  · exact unusedA_recognized _ _ i hi3
  rcases List.mem_append.mp hi3 with hi4 | hi4
  rotate_left
  · exact aclsA_recognized _ _ i hi4
  rcases List.mem_append.mp hi4 with hi5 | hi5
  · have hi6 : i ∈ ((jsSplit text '\n').map jsTrim).enum.flatMap
        (fun p : Nat × String => Analyzer.weakPasswordLineIssues p.1 p.2) := hi5
    exact recognized_flatMap _ _ (fun p : Nat × String => weakALine_all p.1 p.2) i hi6
  · have hi6 : i ∈ ((jsSplit text '\n').map jsTrim).enum.flatMap
        (fun p : Nat × String => Analyzer.openPortsLineIssues p.1 p.2) := hi5
    exact recognized_flatMap _ _ (fun p : Nat × String => openALine_all p.1 p.2) i hi6

theorem weakBLine_all (idx : Nat) (line : String) :
    (FullAnalyzer.weakPasswordLineIssues idx line).all sevOK = true := by
  unfold FullAnalyzer.weakPasswordLineIssues
  dsimp only
  repeat' split
  all_goals rfl

theorem openBLine_all (idx : Nat) (line : String) :
    (FullAnalyzer.openPortsLineIssues idx line).all sevOK = true := by
  unfold FullAnalyzer.openPortsLineIssues
  repeat' split
  all_goals rfl

theorem bestB_all (lines : List String) :
    (FullAnalyzer.checkSecurityBestPractices lines).all sevOK = true := by
  unfold FullAnalyzer.checkSecurityBestPractices
  dsimp only
  repeat' split
  all_goals rfl

theorem aclsB_recognized (lines : List String) (cfg : FullAnalyzer.ParsedConfig) :
    ∀ i ∈ FullAnalyzer.analyzeACLs lines cfg, recognizedSeverity i := by
  intro i hi
  unfold FullAnalyzer.analyzeACLs at hi
  rcases List.mem_append.mp hi with hi | hi
  · exact recognized_flatMap _ _ (fun v => by split <;> rfl) i hi
  · refine recognized_flatMap _ _ (fun f => ?_) i hi
    repeat' split
    all_goals rfl

theorem lengthIssueList_all (pw : String) :
    (FullAnalyzer.lengthIssueList pw).all sevOK = true := by
  unfold FullAnalyzer.lengthIssueList
  repeat' split
  all_goals rfl

theorem digitsIssueList_all (pw : String) :
    (FullAnalyzer.digitsIssueList pw).all sevOK = true := by
  unfold FullAnalyzer.digitsIssueList
  split <;> rfl

theorem lettersIssueList_all (pw : String) :
    (FullAnalyzer.lettersIssueList pw).all sevOK = true := by
  unfold FullAnalyzer.lettersIssueList
  split <;> rfl

theorem commonWordsIssueList_all (pw : String) :
    (FullAnalyzer.commonWordsIssueList pw).all sevOK = true := by
  unfold FullAnalyzer.commonWordsIssueList
  split <;> rfl

/-- Every issue produced by the password-strength sub-analyzer carries a
recognized severity. -/
theorem pwIssues_all (pw : String) :
    ((FullAnalyzer.analyzePasswordStrength pw).issues).all sevOK = true := by
  unfold FullAnalyzer.analyzePasswordStrength
  split
  · rfl
  · split
    · rfl
    · show (FullAnalyzer.lengthIssueList pw ++ FullAnalyzer.digitsIssueList pw ++
        FullAnalyzer.lettersIssueList pw ++ FullAnalyzer.commonWordsIssueList pw).all sevOK = true
      simp only [List.all_append, lengthIssueList_all, digitsIssueList_all,
        lettersIssueList_all, commonWordsIssueList_all, Bool.and_self]

/-- Every issue produced by the part_004 engine carries a recognized
severity. -/
theorem analyzeB_recognized (text : String) (userPassword : Option String) :
    ∀ i ∈ (FullAnalyzer.analyzeConfiguration text userPassword).issues,
      recognizedSeverity i := by
  intro i hi
  have hi' : i ∈
      FullAnalyzer.detectWeakPasswords ((jsSplit text '\n').map jsTrim) ++
      FullAnalyzer.checkOpenPorts ((jsSplit text '\n').map jsTrim) ++
      FullAnalyzer.analyzeACLs ((jsSplit text '\n').map jsTrim)
        (FullAnalyzer.parseConfiguration ((jsSplit text '\n').map jsTrim)) ++
      FullAnalyzer.checkSecurityBestPractices ((jsSplit text '\n').map jsTrim) ++
      (match (match userPassword with
        | some p => if p.length != 0 then some (FullAnalyzer.analyzePasswordStrength p) else none
        | none => none) with
       | some pa => if 0 < pa.issues.length then pa.issues else []
       | none => []) := hi
  rcases List.mem_append.mp hi' with hi'' | hi''
  rotate_left
  · rcases userPassword with _ | p
    · cases hi''
    · dsimp only at hi''
      by_cases hp : (p.length != 0) = true
      · rw [if_pos hp] at hi''
        dsimp only at hi''
        split at hi''
        · exact recognized_of_sevOK (pwIssues_all p) i hi''
        · cases hi''
      · rw [if_neg hp] at hi''
        cases hi''
  rcases List.mem_append.mp hi'' with hi3 | hi3
  rotate_left
  · exact recognized_of_sevOK (bestB_all _) i hi3
  rcases List.mem_append.mp hi3 with hi4 | hi4
  rotate_left
  · exact aclsB_recognized _ _ i hi4
  rcases List.mem_append.mp hi4 with hi5 | hi5
  · have hi6 : i ∈ ((jsSplit text '\n').map jsTrim).enum.flatMap
        (fun p : Nat × String => FullAnalyzer.weakPasswordLineIssues p.1 p.2) := hi5
    exact recognized_flatMap _ _ (fun p : Nat × String => weakBLine_all p.1 p.2) i hi6
  · have hi6 : i ∈ ((jsSplit text '\n').map jsTrim).enum.flatMap
        (fun p : Nat × String => FullAnalyzer.openPortsLineIssues p.1 p.2) := hi5
    exact recognized_flatMap _ _ (fun p : Nat × String => openBLine_all p.1 p.2) i hi6

/-! ### Score bound lemmas -/

theorem calcA_bounds (c h m l : Nat) :
    0 ≤ Analyzer.calculateSecurityScore c h m l ∧
      Analyzer.calculateSecurityScore c h m l ≤ 100 := by
  unfold Analyzer.calculateSecurityScore
  constructor <;> omega

theorem calcB_bounds (c h m l : Nat) (pa : Option PasswordAnalysis) :
    0 ≤ FullAnalyzer.calculateSecurityScore c h m l pa ∧
      FullAnalyzer.calculateSecurityScore c h m l pa ≤ 100 := by
  rcases pa with _ | pa <;> unfold FullAnalyzer.calculateSecurityScore <;> dsimp only
  · constructor <;> omega
  · repeat' split
    all_goals constructor <;> omega

/-! ### The weak-password check never raises -/

theorem splitChar_ne_nil (sep : Char) (l : List Char) : splitChar sep l ≠ [] := by
  cases l with
  | nil => simp [splitChar]
  | cons c cs =>
    unfold splitChar
    split
    · simp
    · rcases hs : splitChar sep cs with _ | ⟨t, ts⟩ <;> simp

theorem splitChar_length_of_mem (sep : Char) (l : List Char) (h : sep ∈ l) :
    2 ≤ (splitChar sep l).length := by
  induction l with
  | nil => cases h
  | cons c cs ih =>
    unfold splitChar
    by_cases hc : (c == sep) = true
    · rw [if_pos hc]
      have h1 : splitChar sep cs ≠ [] := splitChar_ne_nil sep cs
      have h2 : 1 ≤ (splitChar sep cs).length := by
        rcases hs : splitChar sep cs with _ | ⟨t, ts⟩
        · exact absurd hs h1
        · simp
      simp only [List.length_cons]
      omega
    · rw [if_neg hc]
      have hmem : sep ∈ cs := by
        rcases List.mem_cons.mp h with h1 | h1
        · exact absurd (beq_iff_eq.mpr h1.symm) hc
        · exact h1
      have h2 := ih hmem
      rcases hs : splitChar sep cs with _ | ⟨t, ts⟩
      · exact absurd hs (splitChar_ne_nil sep cs)
      · rw [hs] at h2
        simp only [List.length_cons] at h2 ⊢
        omega

theorem jsSplit_length_of_space (line : String) (h : ' ' ∈ line.data) :
    2 ≤ (jsSplit line ' ').length := by
  unfold jsSplit
  rw [List.length_map]
  exact splitChar_length_of_mem ' ' line.data h

theorem infixOfList_subset {pat l : List Char} (h : infixOfList pat l = true) :
    ∀ c ∈ pat, c ∈ l := by
  induction l with
  | nil =>
    intro c hc
    unfold infixOfList at h
    have hpat : pat = [] := by
      cases pat with
      | nil => rfl
      | cons a as => simp [List.isEmpty] at h
    subst hpat
    cases hc
  | cons a as ih =>
    intro c hc
    unfold infixOfList at h
    rcases (Bool.or_eq_true _ _).mp h with h1 | h1
    · exact ( List.isPrefixOf_iff_prefix.mp h1).subset hc
    · exact List.mem_cons_of_mem a (ih h1 c hc)

theorem space_of_directive (line : String)
    (h : (jsStartsWith line "password " || jsIncludes line "secret ") = true) :
    ' ' ∈ line.data := by
  rcases (Bool.or_eq_true _ _).mp h with h1 | h1
  · exact ( List.isPrefixOf_iff_prefix.mp h1).subset (by decide)
  · exact infixOfList_subset h1 ' ' (by decide)

/-- On a line carrying a `password `/`secret ` directive, the credential
token `line.split(' ')[1]` is always present: the directive itself
guarantees a space in the line. -/
theorem jsToken_one_isSome (line : String)
    (h : (jsStartsWith line "password " || jsIncludes line "secret ") = true) :
    ∃ password, jsToken (jsSplit line ' ') 1 = some password := by
  have hlen := jsSplit_length_of_space line (space_of_directive line h)
  exact ⟨(jsSplit line ' ')[1], List.getElem?_eq_getElem (by omega)⟩

theorem weakPasswordLineIssuesE_ok (idx : Nat) (line : String) :
    Analyzer.weakPasswordLineIssuesE idx line =
      Except.ok (Analyzer.weakPasswordLineIssues idx line) := by
  unfold Analyzer.weakPasswordLineIssuesE Analyzer.weakPasswordLineIssues
  by_cases hdir : (jsStartsWith line "password " || jsIncludes line "secret ") = true
  · rw [if_pos hdir, if_pos hdir]
    obtain ⟨password, hp⟩ := jsToken_one_isSome line hdir
    rw [hp]
    rfl
  · rw [if_neg hdir, if_neg hdir]
    rfl

theorem weakPasswordsGoE_ok (l : List (Nat × String)) :
    Analyzer.weakPasswordsGoE l =
      Except.ok (l.flatMap fun p => Analyzer.weakPasswordLineIssues p.1 p.2) := by
  induction l with
  | nil => rfl
  | cons p rest ih =>
    unfold Analyzer.weakPasswordsGoE
    rw [weakPasswordLineIssuesE_ok, ih]
    rfl

/-- The backend weak-password check never raises: the exception-aware
embedding agrees with the total one on every line list. -/
theorem detectWeakPasswordsE_ok (lines : List String) :
    Analyzer.detectWeakPasswordsE lines = Except.ok (Analyzer.detectWeakPasswords lines) :=
  weakPasswordsGoE_ok lines.enum

/-! ### The tiered score formula -/

/-- The part_004 score computation with a password analysis present
agrees with the spec's tier table, clamped to `[0, 100]`. -/
theorem calcB_eq_spec (c h m l : Nat) (pa : PasswordAnalysis) :
    FullAnalyzer.calculateSecurityScore c h m l (some pa) =
      max 0 (min 100 ((specTierTable pa.strength).base -
        ((c : Int) * (specTierTable pa.strength).wCritical +
         (h : Int) * (specTierTable pa.strength).wHigh +
         (m : Int) * (specTierTable pa.strength).wMedium +
         (l : Int) * (specTierTable pa.strength).wLow))) := by
  unfold FullAnalyzer.calculateSecurityScore specTierTable
  dsimp only
  repeat' split
  all_goals (dsimp only; omega)

/-- The part_004 score computation without a password agrees with the
default weight row, clamped to `[0, 100]`. -/
theorem calcB_none_eq_spec (c h m l : Nat) :
    FullAnalyzer.calculateSecurityScore c h m l none =
      max 0 (min 100 (100 -
        ((c : Int) * 15 + (h : Int) * 10 + (m : Int) * 5 + (l : Int) * 2))) := by
  unfold FullAnalyzer.calculateSecurityScore
  dsimp only
  omega

/-! ### Claim theorems -/

/-- C1 (counterexample): contrary to the claim, running the backend
analysis on the empty configuration string does not return
`totalIssues = 0` with `securityScore = 100`: the four best-practice
absence checks fire on the empty joined text. -/
theorem claim_C1_counterexample :
    ¬ ((Analyzer.analyzeConfiguration "").totalIssues = 0 ∧
       (Analyzer.analyzeConfiguration "").securityScore = 100 ∧
       (Analyzer.analyzeConfiguration "").configSummary =
         { totalInterfaces := 0, totalVTYLines := 0, totalACLs := 0 }) := by
  decide

/-- C1 (amended): running the analysis on the empty configuration string
returns an AnalysisResult with `configSummary = {0, 0, 0}` as claimed,
but with `totalIssues = 4` (the four best-practice absence findings:
SSH HIGH, banner LOW, logging MEDIUM, password-encryption MEDIUM) and
`securityScore = 78`. -/
theorem claim_C1_amended :
    (Analyzer.analyzeConfiguration "").totalIssues = 4 ∧
    (Analyzer.analyzeConfiguration "").critical = 0 ∧
    (Analyzer.analyzeConfiguration "").high = 1 ∧
    (Analyzer.analyzeConfiguration "").medium = 2 ∧
    (Analyzer.analyzeConfiguration "").low = 1 ∧
    (Analyzer.analyzeConfiguration "").securityScore = 78 ∧
    (Analyzer.analyzeConfiguration "").configSummary =
      { totalInterfaces := 0, totalVTYLines := 0, totalACLs := 0 } := by
  decide

/-- C2: for every input text and optional password, the returned
AnalysisResult satisfies
`critical + high + medium + low = totalIssues = issues.length`, with
password-analysis issues (when a credential was supplied) folded into
the same severity counters. -/
theorem claim_C2 (text : String) (pw : Option String) :
    (FullAnalyzer.analyzeConfiguration text pw).critical +
      (FullAnalyzer.analyzeConfiguration text pw).high +
      (FullAnalyzer.analyzeConfiguration text pw).medium +
      (FullAnalyzer.analyzeConfiguration text pw).low =
      (FullAnalyzer.analyzeConfiguration text pw).totalIssues ∧
    (FullAnalyzer.analyzeConfiguration text pw).totalIssues =
      (FullAnalyzer.analyzeConfiguration text pw).issues.length := by
  constructor
  · have ec : (FullAnalyzer.analyzeConfiguration text pw).critical =
        countCritical (FullAnalyzer.analyzeConfiguration text pw).issues := rfl
    have eh : (FullAnalyzer.analyzeConfiguration text pw).high =
        countHigh (FullAnalyzer.analyzeConfiguration text pw).issues := rfl
    have em : (FullAnalyzer.analyzeConfiguration text pw).medium =
        countMedium (FullAnalyzer.analyzeConfiguration text pw).issues := rfl
    have el : (FullAnalyzer.analyzeConfiguration text pw).low =
        countLow (FullAnalyzer.analyzeConfiguration text pw).issues := rfl
    have et : (FullAnalyzer.analyzeConfiguration text pw).totalIssues =
        (FullAnalyzer.analyzeConfiguration text pw).issues.length := rfl
    rw [ec, eh, em, el, et]
    exact counts_sum _ (analyzeB_recognized text pw)
  · rfl

/-- C3: with a (non-empty) password supplied, the security score equals
`base − (critical·wC + high·wH + medium·wM + low·wL)` clamped to
`[0, 100]`, where the base and weights are selected from the spec's tier
table by the password's strength tier; without a password the score is
`100 − (critical·15 + high·10 + medium·5 + low·2)`, clamped the same
way. -/
theorem claim_C3 (text pw : String) (hpw : pw.length ≠ 0) :
    ((∀ pa ∈ (FullAnalyzer.analyzeConfiguration text (some pw)).passwordAnalysis,
      (FullAnalyzer.analyzeConfiguration text (some pw)).securityScore =
        max 0 (min 100 ((specTierTable pa.strength).base -
          (((FullAnalyzer.analyzeConfiguration text (some pw)).critical : Int) *
              (specTierTable pa.strength).wCritical +
           ((FullAnalyzer.analyzeConfiguration text (some pw)).high : Int) *
              (specTierTable pa.strength).wHigh +
           ((FullAnalyzer.analyzeConfiguration text (some pw)).medium : Int) *
              (specTierTable pa.strength).wMedium +
           ((FullAnalyzer.analyzeConfiguration text (some pw)).low : Int) *
              (specTierTable pa.strength).wLow)))) ∧
     (FullAnalyzer.analyzeConfiguration text (some pw)).passwordAnalysis =
       some (FullAnalyzer.analyzePasswordStrength pw)) ∧
    (FullAnalyzer.analyzeConfiguration text none).securityScore =
      max 0 (min 100 (100 -
        (((FullAnalyzer.analyzeConfiguration text none).critical : Int) * 15 +
         ((FullAnalyzer.analyzeConfiguration text none).high : Int) * 10 +
         ((FullAnalyzer.analyzeConfiguration text none).medium : Int) * 5 +
         ((FullAnalyzer.analyzeConfiguration text none).low : Int) * 2))) := by
  have hp : (pw.length != 0) = true := by simpa using hpw
  have hpa : (FullAnalyzer.analyzeConfiguration text (some pw)).passwordAnalysis =
      some (FullAnalyzer.analyzePasswordStrength pw) := by
    show (match (some pw : Option String) with
      | some p => if p.length != 0 then some (FullAnalyzer.analyzePasswordStrength p) else none
      | none => none) = some (FullAnalyzer.analyzePasswordStrength pw)
    dsimp only
    rw [if_pos hp]
  refine ⟨⟨?_, hpa⟩, ?_⟩
  · intro pa hmem
    rw [Option.mem_def, hpa] at hmem
    have hpa' : pa = FullAnalyzer.analyzePasswordStrength pw := by
      injection hmem with h'
      exact h'.symm
    subst hpa'
    have hs : (FullAnalyzer.analyzeConfiguration text (some pw)).securityScore =
        FullAnalyzer.calculateSecurityScore
          (FullAnalyzer.analyzeConfiguration text (some pw)).critical
          (FullAnalyzer.analyzeConfiguration text (some pw)).high
          (FullAnalyzer.analyzeConfiguration text (some pw)).medium
          (FullAnalyzer.analyzeConfiguration text (some pw)).low
          (FullAnalyzer.analyzeConfiguration text (some pw)).passwordAnalysis := rfl
    rw [hs, hpa]
    exact calcB_eq_spec _ _ _ _ _
  · have hs : (FullAnalyzer.analyzeConfiguration text none).securityScore =
        FullAnalyzer.calculateSecurityScore
          (FullAnalyzer.analyzeConfiguration text none).critical
          (FullAnalyzer.analyzeConfiguration text none).high
          (FullAnalyzer.analyzeConfiguration text none).medium
          (FullAnalyzer.analyzeConfiguration text none).low
          none := rfl
    rw [hs]
    exact calcB_none_eq_spec _ _ _ _

/-- C3 (witness): the theorem applied at `text = ""`, `pw = "Cisco"`. -/
theorem claim_C3_wit :
    "Cisco".length ≠ 0 ∧
    (FullAnalyzer.analyzeConfiguration "" (some "Cisco")).passwordAnalysis =
      some (FullAnalyzer.analyzePasswordStrength "Cisco") :=
  ⟨by decide, (claim_C3 "" "Cisco" (by decide)).1.2⟩

/-- C4: for every non-empty candidate password that is not a dictionary
match, the analyzer's strength and score are derived from its
accumulated issues exactly as claimed: any CRITICAL issue gives
(CRITICAL, 20); otherwise any HIGH issue gives (WEAK, 40); otherwise
length ≥ 12 with all four character classes gives (STRONG, 100);
otherwise length ≥ 12 gives (MODERATE, 70); otherwise (STRONG, 100).
In particular `analyzePassword("Tr0ub4dor&3!XY")` is (STRONG, 100). -/
theorem claim_C4 (pw : String) (h1 : pw.length ≠ 0)
    (h2 : FullAnalyzer.WEAK_PASSWORDS.contains (jsToLower pw) = false) :
    ((FullAnalyzer.analyzePasswordStrength pw).strength,
      (FullAnalyzer.analyzePasswordStrength pw).score) =
      (if (FullAnalyzer.analyzePasswordStrength pw).issues.any
            (fun i => i.severity == "CRITICAL") then ("CRITICAL", (20 : Int))
       else if (FullAnalyzer.analyzePasswordStrength pw).issues.any
            (fun i => i.severity == "HIGH") then ("WEAK", 40)
       else if decide (12 ≤ pw.length) && hasUppercase pw && hasLowercase pw &&
            hasDigitChar pw && hasSymbolChar pw then ("STRONG", 100)
       else if decide (12 ≤ pw.length) then ("MODERATE", 70)
       else ("STRONG", 100)) ∧
    (FullAnalyzer.analyzePasswordStrength "Tr0ub4dor&3!XY").strength = "STRONG" ∧
    (FullAnalyzer.analyzePasswordStrength "Tr0ub4dor&3!XY").score = 100 := by
  refine ⟨?_, by decide, by decide⟩
  have h1' : (pw.length == 0) = false := by simpa using h1
  unfold FullAnalyzer.analyzePasswordStrength
  rw [h1']
  rw [if_neg (by simp)]
  rw [h2]
  rw [if_neg (by simp)]
  dsimp only
  repeat' split
  all_goals rfl

/-- C5: the password analyzer returns (CRITICAL, 0) with exactly one
CRITICAL issue for an empty credential, and (CRITICAL, 10) with exactly
one CRITICAL issue for a credential that case-insensitively matches the
weak-password dictionary, short-circuiting all further checks. -/
theorem claim_C5 (pw : String) (h1 : pw.length ≠ 0)
    (h2 : FullAnalyzer.WEAK_PASSWORDS.contains (jsToLower pw) = true) :
    ((FullAnalyzer.analyzePasswordStrength pw).strength = "CRITICAL" ∧
     (FullAnalyzer.analyzePasswordStrength pw).score = 10 ∧
     (FullAnalyzer.analyzePasswordStrength pw).issues =
       [FullAnalyzer.veryWeakPasswordIssue pw] ∧
     (FullAnalyzer.veryWeakPasswordIssue pw).severity = "CRITICAL") ∧
    ((FullAnalyzer.analyzePasswordStrength "").strength = "CRITICAL" ∧
     (FullAnalyzer.analyzePasswordStrength "").score = 0 ∧
     (FullAnalyzer.analyzePasswordStrength "").issues = [FullAnalyzer.noPasswordIssue] ∧
     FullAnalyzer.noPasswordIssue.severity = "CRITICAL") := by
  refine ⟨?_, by decide, by decide, by decide, by decide⟩
  have h1' : (pw.length == 0) = false := by simpa using h1
  unfold FullAnalyzer.analyzePasswordStrength
  rw [h1']
  rw [if_neg (by simp)]
  rw [h2]
  rw [if_pos rfl]
  exact ⟨rfl, rfl, rfl, rfl⟩

/-- C4 (witness): the theorem applied at `pw = "Tr0ub4dor&3!XY"`. -/
theorem claim_C4_wit :
    "Tr0ub4dor&3!XY".length ≠ 0 ∧
    FullAnalyzer.WEAK_PASSWORDS.contains (jsToLower "Tr0ub4dor&3!XY") = false ∧
    (FullAnalyzer.analyzePasswordStrength "Tr0ub4dor&3!XY").strength = "STRONG" :=
  ⟨by decide, by decide, (claim_C4 "Tr0ub4dor&3!XY" (by decide) (by decide)).2.1⟩

/-- C5 (witness): the theorem applied at `pw = "Cisco"`. -/
theorem claim_C5_wit :
    "Cisco".length ≠ 0 ∧
    FullAnalyzer.WEAK_PASSWORDS.contains (jsToLower "Cisco") = true ∧
    (FullAnalyzer.analyzePasswordStrength "Cisco").score = 10 :=
  ⟨by decide, by decide, (claim_C5 "Cisco" (by decide) (by decide)).1.2.1⟩

/-- C6: the four-line configuration `line vty 0 4 / password cisco /
transport input telnet / !` with no password parameter scores within
`[20, 45]` (backend engine: 28; part_004 engine: 40). -/
theorem claim_C6 :
    (20 ≤ (Analyzer.analyzeConfiguration
        "line vty 0 4\npassword cisco\ntransport input telnet\n!").securityScore ∧
     (Analyzer.analyzeConfiguration
        "line vty 0 4\npassword cisco\ntransport input telnet\n!").securityScore ≤ 45) ∧
    (20 ≤ (FullAnalyzer.analyzeConfiguration
        "line vty 0 4\npassword cisco\ntransport input telnet\n!" none).securityScore ∧
     (FullAnalyzer.analyzeConfiguration
        "line vty 0 4\npassword cisco\ntransport input telnet\n!" none).securityScore ≤ 45) := by
  decide

/-- C7: the line-based weak-password check matches case-sensitively
while the standalone analyzer lowercases first; on the credential
`"Cisco"` the line check emits no CRITICAL issue at all, yet the
standalone analyzer returns (CRITICAL, 10). -/
theorem claim_C7 :
    (FullAnalyzer.detectWeakPasswords ["password Cisco"]).all
      (fun i => i.severity != "CRITICAL") = true ∧
    (FullAnalyzer.analyzePasswordStrength "Cisco").strength = "CRITICAL" ∧
    (FullAnalyzer.analyzePasswordStrength "Cisco").score = 10 ∧
    FullAnalyzer.WEAK_PASSWORDS.contains "Cisco" = false ∧
    FullAnalyzer.WEAK_PASSWORDS.contains (jsToLower "Cisco") = true := by
  decide

/-- C8: for every input text and optional password, both engines return
a security score within `[0, 100]`. -/
theorem claim_C8 (text : String) (pw : Option String) :
    (0 ≤ (FullAnalyzer.analyzeConfiguration text pw).securityScore ∧
     (FullAnalyzer.analyzeConfiguration text pw).securityScore ≤ 100) ∧
    (0 ≤ (Analyzer.analyzeConfiguration text).securityScore ∧
     (Analyzer.analyzeConfiguration text).securityScore ≤ 100) := by
  constructor
  · have hs : (FullAnalyzer.analyzeConfiguration text pw).securityScore =
        FullAnalyzer.calculateSecurityScore
          (FullAnalyzer.analyzeConfiguration text pw).critical
          (FullAnalyzer.analyzeConfiguration text pw).high
          (FullAnalyzer.analyzeConfiguration text pw).medium
          (FullAnalyzer.analyzeConfiguration text pw).low
          (FullAnalyzer.analyzeConfiguration text pw).passwordAnalysis := rfl
    rw [hs]
    exact calcB_bounds _ _ _ _ _
  · have hs : (Analyzer.analyzeConfiguration text).securityScore =
        Analyzer.calculateSecurityScore
          (Analyzer.analyzeConfiguration text).critical
          (Analyzer.analyzeConfiguration text).high
          (Analyzer.analyzeConfiguration text).medium
          (Analyzer.analyzeConfiguration text).low := rfl
    rw [hs]
    exact calcA_bounds _ _ _ _

/-- C9: for every input text the backend engine terminates with a
well-formed AnalysisResult and never raises: the exception-aware
embedding of the weak-password check (the only place the JavaScript
could dereference `undefined`) returns `ok` of the total embedding —
which treats a missing credential token as the empty string — and the
result satisfies the counting and score invariants. -/
theorem claim_C9 (text : String) :
    Analyzer.detectWeakPasswordsE ((jsSplit text '\n').map jsTrim) =
      Except.ok (Analyzer.detectWeakPasswords ((jsSplit text '\n').map jsTrim)) ∧
    (Analyzer.analyzeConfiguration text).totalIssues =
      (Analyzer.analyzeConfiguration text).issues.length ∧
    (Analyzer.analyzeConfiguration text).critical +
      (Analyzer.analyzeConfiguration text).high +
      (Analyzer.analyzeConfiguration text).medium +
      (Analyzer.analyzeConfiguration text).low =
      (Analyzer.analyzeConfiguration text).totalIssues ∧
    0 ≤ (Analyzer.analyzeConfiguration text).securityScore ∧
    (Analyzer.analyzeConfiguration text).securityScore ≤ 100 := by
  refine ⟨detectWeakPasswordsE_ok _, rfl, ?_, ?_, ?_⟩
  · have ec : (Analyzer.analyzeConfiguration text).critical =
        countCritical (Analyzer.analyzeConfiguration text).issues := rfl
    have eh : (Analyzer.analyzeConfiguration text).high =
        countHigh (Analyzer.analyzeConfiguration text).issues := rfl
    have em : (Analyzer.analyzeConfiguration text).medium =
        countMedium (Analyzer.analyzeConfiguration text).issues := rfl
    have el : (Analyzer.analyzeConfiguration text).low =
        countLow (Analyzer.analyzeConfiguration text).issues := rfl
    have et : (Analyzer.analyzeConfiguration text).totalIssues =
        (Analyzer.analyzeConfiguration text).issues.length := rfl
    rw [ec, eh, em, el, et]
    exact counts_sum _ (analyzeA_recognized text)
  · have hs : (Analyzer.analyzeConfiguration text).securityScore =
        Analyzer.calculateSecurityScore
          (Analyzer.analyzeConfiguration text).critical
          (Analyzer.analyzeConfiguration text).high
          (Analyzer.analyzeConfiguration text).medium
          (Analyzer.analyzeConfiguration text).low := rfl
    rw [hs]
    exact (calcA_bounds _ _ _ _).1
  · have hs : (Analyzer.analyzeConfiguration text).securityScore =
        Analyzer.calculateSecurityScore
          (Analyzer.analyzeConfiguration text).critical
          (Analyzer.analyzeConfiguration text).high
          (Analyzer.analyzeConfiguration text).medium
          (Analyzer.analyzeConfiguration text).low := rfl
    rw [hs]
    exact (calcA_bounds _ _ _ _).2

/-- C10: supplying the empty string as the password parameter behaves
exactly like supplying no password at all: the JavaScript truthiness
guard rejects it, `passwordAnalysis` stays `none`, no password issues
are added, and the whole result coincides with the no-password run. -/
theorem claim_C10 (text : String) :
    FullAnalyzer.analyzeConfiguration text (some "") =
      FullAnalyzer.analyzeConfiguration text none ∧
    (FullAnalyzer.analyzeConfiguration text (some "")).passwordAnalysis = none := by
  exact ⟨rfl, rfl⟩
